import Mathlib

/-!
Shallow embedding of the ARN glob-intersection matcher and the resource-type
resolver of `parliament/__init__.py`.

Strings are modelled by Lean `String`; the character-level work of the Python
code (regex substitution, `split(":")`, substring tests, indexing) is carried
out on `List Char` obtained through `String.data`.  A Python function that can
`raise` is modelled as returning `Except String α`, the error payload being the
exception message.
-/

deriving instance DecidableEq for Except

/-- Model of Python's `needle in hay` on strings (`hasSub hay needle`):
`needle` occurs as a contiguous substring of `hay`. -/
def hasSub (hay needle : List Char) : Bool :=
  match hay with
  | [] => needle.isEmpty
  | _ :: t => needle.isPrefixOf hay || hasSub t needle

/-- Model of Python's `needle in hay` for `String`s. -/
def strIn (needle hay : String) : Bool :=
  hasSub hay.data needle.data

/-- Python's `s.split(":")` on a list of characters: cut at every colon,
keeping empty pieces, with `[""]` for the empty string. -/
def splitCols (l : List Char) : List (List Char) :=
  match l with
  | [] => [[]]
  | c :: t =>
    if c = ':' then [] :: splitCols t
    else
      match splitCols t with
      | [] => [[c]]
      | h :: r => (c :: h) :: r

/-- Scanner for a lazy (non-greedy) regex tail `.*?c`: return the characters
after the first occurrence of `close`, provided only non-newline characters
precede it (`.` does not match a newline); `none` otherwise. -/
def scanUpto (close : Char) (l : List Char) : Option (List Char) :=
  match l with
  | [] => none
  | c :: r => if c = close then some r else if c = '\n' then none else scanUpto close r

/-- After an opening `[`, decide whether the lazy regex tail `.+?\]` matches
the remaining characters `t`; on success, return what follows the closing
bracket. -/
def bracketHit (t : List Char) : Option (List Char) :=
  match t with
  | [] => none
  | c1 :: t1 => if c1 = '\n' then none else scanUpto ']' t1

/-- Left-to-right scan of `re.sub(r"\[.+?\]", "*", s)`.  The scan consumes at
least one character per step, so `fuel` bounds the remaining work; recursion
on `fuel` (always called with `fuel ≥ l.length`, and a successful hit only
shortens the list) keeps the function structurally recursive. -/
def bracketSubAux : Nat → List Char → List Char
  | 0, l => l
  | _, [] => []
  | fuel + 1, c :: t =>
    if c = '[' then
      match bracketHit t with
      | some r => '*' :: bracketSubAux fuel r
      | none => '[' :: bracketSubAux fuel t
    else c :: bracketSubAux fuel t

/-- Python's `re.sub(r"\[.+?\]", "*", s)` on a list of characters: scanning
left to right, each shortest bracketed run `[` … `]` holding at least one
non-newline character is replaced by a single `*`. -/
def bracketSub (l : List Char) : List Char :=
  bracketSubAux l.length l

/-- The opening curly brace character (written by code point to keep it out
of string literals). -/
def lbrace : Char := Char.ofNat 123

/-- The closing curly brace character. -/
def rbrace : Char := Char.ofNat 125

/-- After a `$`, decide whether the lazy regex tail `\{.*?\}` matches the
remaining characters `t`; on success, return what follows the closing
brace. -/
def dollarHit (t : List Char) : Option (List Char) :=
  match t with
  | [] => none
  | c1 :: t1 => if c1 = lbrace then scanUpto rbrace t1 else none

/-- Left-to-right scan of `re.sub(r"\$\{.*?\}", "*", s)`, fuelled like
`bracketSubAux`. -/
def dollarSubAux : Nat → List Char → List Char
  | 0, l => l
  | _, [] => []
  | fuel + 1, c :: t =>
    if c = '$' then
      match dollarHit t with
      | some r => '*' :: dollarSubAux fuel r
      | none => '$' :: dollarSubAux fuel t
    else c :: dollarSubAux fuel t

/-- Python's `re.sub(r"\$\{.*?\}", "*", s)` on a list of characters: scanning
left to right, each shortest `$`-brace placeholder (possibly with an empty
body) is replaced by a single `*`. -/
def dollarSub (l : List Char) : List Char :=
  dollarSubAux l.length l

/-- One position of the `for position in range(0, 5)` loop body of
`is_arn_match`: the two segments are compatible when either is `"*"`,
either is empty, or they are equal. -/
def segOk (x y : List Char) : Bool :=
  x = ['*'] ∨ x = [] ∨ y = ['*'] ∨ y = [] ∨ x = y

/-- The whole `range(0, 5)` loop of `is_arn_match`: `true` iff no position
0–4 makes the function return `False`. -/
def headSegsOk (ap rp : List (List Char)) : Bool :=
  (List.range 5).all fun i => segOk (ap.getD i []) (rp.getD i [])

/-- The identifier-comparison cascade of `is_arn_match`, lines 86–156 of the
source: `a0` is `arn_id` as first computed (before the bracket substitution),
`r` is `resource_id`.  Returns the boolean the Python code returns. -/
def idMatch (a0 r : List Char) : Bool :=
  if a0 = r then true
  else
    let a := bracketSub a0
    if ¬ a.contains '*' ∧ ¬ r.contains '*' then false
    else if a = ['*'] ∨ r = ['*'] then true
    else if a = [] ∨ r = [] then false
    else if (a.head? = some '*' ∧ r.getLast? = some '*')
        ∨ (a.getLast? = some '*' ∧ r.head? = some '*') then true
    else if a.head? = some '*' ∧ a.getLast? = some '*'
        ∧ hasSub r (a.tail.dropLast) then true
    else if r.head? = some '*' ∧ r.getLast? = some '*'
        ∧ hasSub a (r.tail.dropLast) then true
    else if a.getLast? = some '*' ∧ r.take (a.length - 1) = a.dropLast then true
    else if r.getLast? = some '*' ∧ a.take (r.length - 1) = r.dropLast then true
    else false

/-- The function `is_arn_match(resource_type, arn_format, resource)` of
`parliament/__init__.py`.  A `raise Exception(msg)` is modelled as
`Except.error msg`; a returned boolean as `Except.ok`.  (The Python local
variables `arn_parts` / `resource_parts` are inlined as the repeated
`splitCols` calls.) -/
def is_arn_match (resource_type arn_format resource : String) : Except String Bool :=
  if arn_format = "*" ∨ resource = "*" then Except.ok true
  else if strIn "bucket" resource_type ∧ strIn "/" resource then Except.ok false
  else if (splitCols arn_format.data).length < 6 then
    Except.error ("Unexpected format for ARN: " ++ arn_format)
  else if (splitCols resource.data).length < 6 then
    Except.error ("Unexpected format for resource: " ++ resource)
  else if headSegsOk (splitCols arn_format.data) (splitCols resource.data) = false then
    Except.ok false
  else
    Except.ok (idMatch ((splitCols arn_format.data).drop 5).flatten
      ((splitCols resource.data).drop 5).flatten)

/-- One entry of the `resources` list of a service in `iam_definition`:
the fields `resource["resource"]` (the resource type name) and
`resource["arn"]` (the ARN template) read by `get_resource_type_from_arn`. -/
structure ResourceRecord where
  resource : String
  arn : String
deriving DecidableEq

/-- One entry of `iam_definition`: the fields `service["service_name"]`
and `service["resources"]` read by `get_resource_type_from_arn`. -/
structure ServiceRecord where
  service_name : String
  resources : List ResourceRecord
deriving DecidableEq

/-- The template normalization `re.sub(r"\$\{.*?\}", "*", resource["arn"])`
performed by `get_resource_type_from_arn`. -/
def normalizeTemplate (s : String) : String :=
  String.mk (dollarSub s.data)

/-- The nested `for service in iam_definition: for resource in
service["resources"]` iteration, flattened into the sequence of
(service name, resource record) pairs in catalog order. -/
def catalogRecords (catalog : List ServiceRecord) : List (String × ResourceRecord) :=
  catalog.flatMap fun s => s.resources.map fun r => (s.service_name, r)

/-- Holds (as `true`) iff the matcher call `get_resource_type_from_arn` performs
on this record returns (rather than raising). -/
def noRaise (arn : String) (p : String × ResourceRecord) : Bool :=
  match is_arn_match p.2.resource arn (normalizeTemplate p.2.arn) with
  | Except.error _ => false
  | Except.ok _ => true

/-- Holds (as `true`) iff the matcher call `get_resource_type_from_arn` performs
on this record returns `True`. -/
def isHit (arn : String) (r : ResourceRecord) : Bool :=
  match is_arn_match r.resource arn (normalizeTemplate r.arn) with
  | Except.ok true => true
  | _ => false

/-- The loop body of `get_resource_type_from_arn` over the flattened record
sequence.  Each `print` of a qualifying `(service_name, resource)` pair is
modelled as an element of the first component; an exception escaping the loop
is modelled as `some` message in the second component, with the pairs already
printed before the exception kept in the first component. -/
def resolveAux (arn : String) : List (String × ResourceRecord) → List (String × String) × Option String
  | [] => ([], none)
  | p :: rest =>
    match is_arn_match p.2.resource arn (normalizeTemplate p.2.arn) with
    | Except.error e => ([], some e)
    | Except.ok b =>
      let q := resolveAux arn rest
      (if b then (p.1, p.2.resource) :: q.1 else q.1, q.2)

/-- The function `get_resource_type_from_arn(arn)` of `parliament/__init__.py`, with the
process-wide `iam_definition` passed explicitly as `catalog`. -/
def get_resource_type_from_arn (catalog : List ServiceRecord) (arn : String) :
    List (String × String) × Option String :=
  resolveAux arn (catalogRecords catalog)

/-- Specification-side description of the Resolver's output (spec section 4.2) —
"for every Service Record in the catalog, for every Resource Type Record
within it", every record whose normalized template the matcher judges to
intersect the input ARN is emitted as a (service name, resource type name)
pair, in catalog iteration order.  Used as the specification side of the
refinement claim about `get_resource_type_from_arn`. -/
def resolveSpec (catalog : List ServiceRecord) (arn : String) : List (String × String) :=
  catalog.flatMap fun s =>
    (s.resources.filter (isHit arn)).map fun r => (s.service_name, r.resource)

theorem segOk_self (x : List Char) : segOk x x = true := by
  simp [segOk]

theorem headSegsOk_self (ap : List (List Char)) : headSegsOk ap ap = true := by
  simp [headSegsOk, segOk_self]

theorem idMatch_self (x : List Char) : idMatch x x = true := by
  rw [idMatch, if_pos rfl]

theorem hasSub_of_mem {l : List Char} {c : Char} (h : c ∈ l) : hasSub l [c] = true := by
  induction l with
  | nil => cases h
  | cons x t ih =>
    rw [hasSub]
    rcases List.mem_cons.mp h with h1 | h2
    · subst h1
      simp [List.isPrefixOf]
    · rw [ih h2]
      simp

theorem splitCols_mem : ∀ {l seg : List Char} {c : Char},
    seg ∈ splitCols l → c ∈ seg → c ∈ l := by
  intro l
  induction l with
  | nil =>
    intro seg c hseg hc
    simp [splitCols] at hseg
    subst hseg
    cases hc
  | cons x t ih =>
    intro seg c hseg hc
    rw [splitCols] at hseg
    by_cases hx : x = ':'
    · rw [if_pos hx] at hseg
      rcases List.mem_cons.mp hseg with h1 | h2
      · subst h1; cases hc
      · exact List.mem_cons_of_mem _ (ih h2 hc)
    · rw [if_neg hx] at hseg
      cases hsp : splitCols t with
      | nil =>
        rw [hsp] at hseg
        simp at hseg
        subst hseg
        simp at hc
        simp [hc]
      | cons hh rr =>
        rw [hsp] at hseg
        rcases List.mem_cons.mp hseg with h1 | h2
        · subst h1
          rcases List.mem_cons.mp hc with e1 | e2
          · simp [e1]
          · exact List.mem_cons_of_mem _
              (ih (by rw [hsp]; exact List.mem_cons_self _ _) e2)
        · exact List.mem_cons_of_mem _
            (ih (by rw [hsp]; exact List.mem_cons_of_mem _ h2) hc)

/-- Shared reduction: once the two wildcard guards, the bucket guard, the two
length guards and the position 0–4 loop have all passed, `is_arn_match` is the
identifier cascade applied to the rejoined trailing segments. -/
theorem matcher_id_branch (hint a b : String)
    (ha : a ≠ "*") (hb : b ≠ "*")
    (hbucket : ¬(strIn "bucket" hint = true ∧ strIn "/" b = true))
    (hla : 6 ≤ (splitCols a.data).length) (hlb : 6 ≤ (splitCols b.data).length)
    (hseg : headSegsOk (splitCols a.data) (splitCols b.data) = true) :
    is_arn_match hint a b =
      Except.ok (idMatch ((splitCols a.data).drop 5).flatten
        ((splitCols b.data).drop 5).flatten) := by
  rw [is_arn_match, if_neg (not_or.mpr ⟨ha, hb⟩), if_neg hbucket, if_neg (by omega),
    if_neg (by omega), if_neg (by simp [hseg])]

/-- C4: if either whole pattern is exactly `"*"`, `is_arn_match` returns
`True`, for every resource type hint and arbitrary other argument. -/
theorem star_short_circuit (hint a b : String) (h : a = "*" ∨ b = "*") :
    is_arn_match hint a b = Except.ok true := by
  rw [is_arn_match, if_pos h]

/-- Witness for `star_short_circuit` at a concrete input. -/
theorem star_short_circuit_witness :
    ("*" = "*" ∨ "x:y" = "*") ∧
      is_arn_match "s3:bucket" "*" "x:y" = Except.ok true :=
  ⟨Or.inl rfl, star_short_circuit "s3:bucket" "*" "x:y" (Or.inl rfl)⟩

/-- C9: on any two patterns with at least 6 colon-delimited segments,
`is_arn_match` returns a boolean and never raises. -/
theorem wellformed_total (hint a b : String)
    (ha : 6 ≤ (splitCols a.data).length) (hb : 6 ≤ (splitCols b.data).length) :
    ∃ v, is_arn_match hint a b = Except.ok v := by
  rw [is_arn_match]
  split_ifs with h1 h2 h3 h4 h5
  · exact ⟨true, rfl⟩
  · exact ⟨false, rfl⟩
  · omega
  · omega
  · exact ⟨false, rfl⟩
  · exact ⟨_, rfl⟩

/-- Witness for `wellformed_total` at a concrete input. -/
theorem wellformed_total_witness :
    6 ≤ (splitCols "a:b:c:d:e:f".data).length ∧
      6 ≤ (splitCols "g:h:i:j:k:l".data).length ∧
      ∃ v, is_arn_match "x" "a:b:c:d:e:f" "g:h:i:j:k:l" = Except.ok v :=
  ⟨by decide, by decide, wellformed_total "x" _ _ (by decide) (by decide)⟩

/-- Counterexample to C3 as stated: a well-formed pattern whose identifier
contains `/`, matched against itself under a hint containing `"bucket"`,
yields `False`, not `True`. -/
theorem self_match_bucket_false :
    6 ≤ (splitCols "arn:aws:s3:::x/y".data).length ∧
      is_arn_match "bucket" "arn:aws:s3:::x/y" "arn:aws:s3:::x/y" = Except.ok false :=
  ⟨by decide, rfl⟩

/-- C3 amended: `is_arn_match hint a a = True` for every well-formed `a`
(at least 6 colon-delimited segments), provided the bucket exclusion does not
fire, i.e. not (`hint` contains `"bucket"` and `a` contains `/`). -/
theorem self_match_true (hint a : String)
    (hlen : 6 ≤ (splitCols a.data).length)
    (hb : ¬(strIn "bucket" hint = true ∧ strIn "/" a = true)) :
    is_arn_match hint a a = Except.ok true := by
  by_cases hstar : a = "*"
  · rw [is_arn_match, if_pos (Or.inl hstar)]
  · rw [matcher_id_branch hint a a hstar hstar hb hlen hlen (headSegsOk_self _),
      idMatch_self]

/-- Witness for `self_match_true` at a concrete input. -/
theorem self_match_true_witness :
    6 ≤ (splitCols "arn:aws:s3:::mybucket".data).length ∧
      ¬(strIn "bucket" "s3:object" = true ∧ strIn "/" "arn:aws:s3:::mybucket" = true) ∧
      is_arn_match "s3:object" "arn:aws:s3:::mybucket" "arn:aws:s3:::mybucket" =
        Except.ok true :=
  ⟨by decide, by decide, self_match_true "s3:object" _ (by decide) (by decide)⟩

/-- Counterexample to C2 as stated: with the first pattern exactly `"*"`, a
second argument with only 5 colon-delimited segments does not raise; the call
returns `True`. -/
theorem malformed_star_no_error :
    (splitCols "a:b:c:d:e".data).length = 5 ∧
      is_arn_match "x" "*" "a:b:c:d:e" = Except.ok true :=
  ⟨by decide, rfl⟩

/-- C2 amended: provided neither whole pattern is exactly `"*"` and the bucket
exclusion does not fire, an argument with fewer than 6 colon-delimited
segments (in either position) makes `is_arn_match` raise the malformed-ARN
error. -/
theorem malformed_arn_error (hint a b : String)
    (ha : a ≠ "*") (hb : b ≠ "*")
    (hbucket : ¬(strIn "bucket" hint = true ∧ strIn "/" b = true))
    (hlen : (splitCols a.data).length < 6 ∨ (splitCols b.data).length < 6) :
    ∃ e, is_arn_match hint a b = Except.error e := by
  rw [is_arn_match, if_neg (not_or.mpr ⟨ha, hb⟩), if_neg hbucket]
  split_ifs with h3 h4 h5
  · exact ⟨_, rfl⟩
  · exact ⟨_, rfl⟩
  · cases hlen with
    | inl h => exact absurd h h3
    | inr h => exact absurd h h4
  · cases hlen with
    | inl h => exact absurd h h3
    | inr h => exact absurd h h4

/-- Witness for `malformed_arn_error` at a concrete input (a 5-segment
pattern in the first position). -/
theorem malformed_arn_error_witness :
    ("a:b:c:d:e" : String) ≠ "*" ∧ ("f:g:h:i:j:k" : String) ≠ "*" ∧
      ¬(strIn "bucket" "x" = true ∧ strIn "/" "f:g:h:i:j:k" = true) ∧
      (splitCols "a:b:c:d:e".data).length < 6 ∧
      ∃ e, is_arn_match "x" "a:b:c:d:e" "f:g:h:i:j:k" = Except.error e :=
  ⟨by decide, by decide, by decide, by decide,
    malformed_arn_error "x" _ _ (by decide) (by decide) (by decide)
      (Or.inl (by decide))⟩

/-- Counterexample to C1 as stated: the hint contains `"bucket"` and the
second pattern's identifier portion contains `/`, yet with the first pattern
exactly `"*"` the call returns `True` — the universal-wildcard short-circuit
precedes the bucket exclusion. -/
theorem bucket_rule_star_override :
    strIn "bucket" "bucket" = true ∧
      '/' ∈ ((splitCols "arn:aws:s3:::a/b".data).drop 5).flatten ∧
      is_arn_match "bucket" "*" "arn:aws:s3:::a/b" = Except.ok true :=
  ⟨rfl, by decide, rfl⟩

/-- C1 amended: if the hint contains `"bucket"`, the second pattern's
identifier portion contains `/`, and the first pattern is not exactly `"*"`,
then `is_arn_match` returns `False`, regardless of what else the first
pattern is. -/
theorem bucket_rule_blocks_nonstar (hint a b : String)
    (ha : a ≠ "*") (hbucket : strIn "bucket" hint = true)
    (hslash : '/' ∈ ((splitCols b.data).drop 5).flatten) :
    is_arn_match hint a b = Except.ok false := by
  have hmem : '/' ∈ b.data := by
    obtain ⟨seg, hseg, hc⟩ := List.mem_flatten.mp hslash
    exact splitCols_mem (List.mem_of_mem_drop hseg) hc
  have hslashb : strIn "/" b = true := hasSub_of_mem hmem
  have hbne : b ≠ "*" := by
    intro h
    subst h
    exact absurd hmem (by decide)
  rw [is_arn_match, if_neg (not_or.mpr ⟨ha, hbne⟩), if_pos ⟨hbucket, hslashb⟩]

/-- Witness for `bucket_rule_blocks_nonstar` at the spec's own concrete
example. -/
theorem bucket_rule_blocks_nonstar_witness :
    ("arn:*:s3:::*" : String) ≠ "*" ∧ strIn "bucket" "s3:bucket" = true ∧
      '/' ∈ ((splitCols "arn:aws:s3:::mybucket/key".data).drop 5).flatten ∧
      is_arn_match "s3:bucket" "arn:*:s3:::*" "arn:aws:s3:::mybucket/key" =
        Except.ok false :=
  ⟨by decide, rfl, by decide,
    bucket_rule_blocks_nonstar "s3:bucket" _ _ (by decide) rfl (by decide)⟩

/-- Counterexample to C5 as stated: the first identifier `x[k]y` becomes
`x*y` under the bracket substitution, equal to the second identifier, the
earlier rules all pass, yet the call returns `False` — in the code the
textual-equality test uses the raw identifiers and precedes the
substitution. -/
theorem bracket_subst_after_eq_check :
    bracketSub ((splitCols "a:b:c:d:e:x[k]y".data).drop 5).flatten =
        ((splitCols "a:b:c:d:e:x*y".data).drop 5).flatten ∧
      headSegsOk (splitCols "a:b:c:d:e:x[k]y".data) (splitCols "a:b:c:d:e:x*y".data)
        = true ∧
      is_arn_match "x" "a:b:c:d:e:x[k]y" "a:b:c:d:e:x*y" = Except.ok false :=
  ⟨by decide, by decide, rfl⟩

/-- C5 amended: for patterns passing the universal-wildcard, bucket-exclusion
and position 0–4 rules, textual equality of the two RAW identifier strings
(before any bracket substitution) makes `is_arn_match` return `True`; the
equality test precedes the replacement step. -/
theorem raw_id_eq_gives_true (hint a b : String)
    (ha : a ≠ "*") (hb : b ≠ "*")
    (hbucket : ¬(strIn "bucket" hint = true ∧ strIn "/" b = true))
    (hla : 6 ≤ (splitCols a.data).length) (hlb : 6 ≤ (splitCols b.data).length)
    (hseg : headSegsOk (splitCols a.data) (splitCols b.data) = true)
    (hid : ((splitCols a.data).drop 5).flatten = ((splitCols b.data).drop 5).flatten) :
    is_arn_match hint a b = Except.ok true := by
  rw [matcher_id_branch hint a b ha hb hbucket hla hlb hseg, hid, idMatch_self]

/-- Witness for `raw_id_eq_gives_true` at a concrete input. -/
theorem raw_id_eq_gives_true_witness :
    ("*:b:c:d:e:mybucket" : String) ≠ "*" ∧ ("a:*:c:d:e:mybucket" : String) ≠ "*" ∧
      ¬(strIn "bucket" "x" = true ∧ strIn "/" "a:*:c:d:e:mybucket" = true) ∧
      6 ≤ (splitCols "*:b:c:d:e:mybucket".data).length ∧
      6 ≤ (splitCols "a:*:c:d:e:mybucket".data).length ∧
      headSegsOk (splitCols "*:b:c:d:e:mybucket".data)
        (splitCols "a:*:c:d:e:mybucket".data) = true ∧
      ((splitCols "*:b:c:d:e:mybucket".data).drop 5).flatten =
        ((splitCols "a:*:c:d:e:mybucket".data).drop 5).flatten ∧
      is_arn_match "x" "*:b:c:d:e:mybucket" "a:*:c:d:e:mybucket" = Except.ok true :=
  ⟨by decide, by decide, by decide, by decide, by decide, by decide, by decide,
    raw_id_eq_gives_true "x" _ _ (by decide) (by decide) (by decide) (by decide)
      (by decide) (by decide) (by decide)⟩

/-- Counterexample to C8 as stated: the call does not return `True`. -/
theorem personalize_call_not_true :
    is_arn_match "s3:object" "*/*" "*personalize*" ≠ Except.ok true := by
  intro h
  rw [show is_arn_match "s3:object" "*/*" "*personalize*"
      = Except.error "Unexpected format for ARN: */*" from rfl] at h
  exact Except.noConfusion h

/-- C8 amended: the concrete call raises the malformed-ARN error for its
first argument (each argument has a single colon-delimited segment), rather
than returning a boolean.  (The docstring's `"*/*"` / `"*personalize*"`
example describes identifier portions, not whole arguments.) -/
theorem personalize_call_raises :
    is_arn_match "s3:object" "*/*" "*personalize*" =
      Except.error "Unexpected format for ARN: */*" := rfl

/-- C6: with the earlier rules passed, (i) any position 0–4 where neither
segment is `"*"`, neither is empty and the segments differ makes
`is_arn_match` return `False`; (ii) patterns whose position 0–4 segments
differ only by `"*"` wildcards and whose identifier portions are identical
always yield `True`. -/
theorem head_segment_rules :
    (∀ hint a b : String, a ≠ "*" → b ≠ "*" →
      ¬(strIn "bucket" hint = true ∧ strIn "/" b = true) →
      6 ≤ (splitCols a.data).length → 6 ≤ (splitCols b.data).length →
      (∃ i ∈ List.range 5,
        segOk ((splitCols a.data).getD i []) ((splitCols b.data).getD i []) = false) →
      is_arn_match hint a b = Except.ok false) ∧
    (∀ hint a b : String, a ≠ "*" → b ≠ "*" →
      ¬(strIn "bucket" hint = true ∧ strIn "/" b = true) →
      6 ≤ (splitCols a.data).length → 6 ≤ (splitCols b.data).length →
      (∀ i ∈ List.range 5,
        (splitCols a.data).getD i [] = (splitCols b.data).getD i [] ∨
          (splitCols a.data).getD i [] = ['*'] ∨ (splitCols b.data).getD i [] = ['*']) →
      ((splitCols a.data).drop 5).flatten = ((splitCols b.data).drop 5).flatten →
      is_arn_match hint a b = Except.ok true) := by
  constructor
  · intro hint a b ha hb hbucket hla hlb hex
    obtain ⟨i, hi, hbad⟩ := hex
    have hfalse : headSegsOk (splitCols a.data) (splitCols b.data) = false := by
      rw [headSegsOk]
      cases hall : (List.range 5).all
          (fun j => segOk ((splitCols a.data).getD j []) ((splitCols b.data).getD j [])) with
      | false => rfl
      | true =>
        have h2 : segOk ((splitCols a.data).getD i []) ((splitCols b.data).getD i [])
            = true := List.all_eq_true.mp hall i hi
        rw [hbad] at h2
        exact Bool.noConfusion h2
    rw [is_arn_match, if_neg (not_or.mpr ⟨ha, hb⟩), if_neg hbucket,
      if_neg (by omega), if_neg (by omega), if_pos hfalse]
  · intro hint a b ha hb hbucket hla hlb hcompat hid
    have hseg : headSegsOk (splitCols a.data) (splitCols b.data) = true := by
      rw [headSegsOk]
      apply List.all_eq_true.mpr
      intro i hi
      rcases hcompat i hi with h | h | h
      · exact decide_eq_true (Or.inr (Or.inr (Or.inr (Or.inr h))))
      · exact decide_eq_true (Or.inl h)
      · exact decide_eq_true (Or.inr (Or.inr (Or.inl h)))
    rw [matcher_id_branch hint a b ha hb hbucket hla hlb hseg, hid, idMatch_self]

/-- Witness for `head_segment_rules`: part (i) at patterns differing in the
service segment, part (ii) at patterns differing only by wildcards in
positions 0–4 with equal identifiers. -/
theorem head_segment_rules_witness :
    is_arn_match "x" "arn:aws:s3:::f" "arn:aws:ec2:::f" = Except.ok false ∧
      is_arn_match "x" "arn:*:s3:::f" "*:aws:s3:::f" = Except.ok true :=
  ⟨head_segment_rules.1 "x" _ _ (by decide) (by decide) (by decide) (by decide)
      (by decide) ⟨2, by decide, by decide⟩,
    head_segment_rules.2 "x" _ _ (by decide) (by decide) (by decide) (by decide)
      (by decide) (by decide) (by decide)⟩

theorem isHit_eq {arn : String} {r : ResourceRecord} {b : Bool}
    (h : is_arn_match r.resource arn (normalizeTemplate r.arn) = Except.ok b) :
    isHit arn r = b := by
  cases b <;> simp [isHit, h]

theorem resolveAux_all_ok (arn : String) :
    ∀ l : List (String × ResourceRecord), l.all (noRaise arn) = true →
      resolveAux arn l =
        ((l.filter fun p => isHit arn p.2).map fun p => (p.1, p.2.resource), none) := by
  intro l
  induction l with
  | nil => intro _; rfl
  | cons p rest ih =>
    intro h
    rw [List.all_cons, Bool.and_eq_true] at h
    obtain ⟨hp, hrest⟩ := h
    rw [resolveAux]
    cases hm : is_arn_match p.2.resource arn (normalizeTemplate p.2.arn) with
    | error e => simp [noRaise, hm] at hp
    | ok b =>
      simp only [ih hrest, List.filter_cons, isHit_eq hm]
      cases b <;> simp

theorem records_inner (sn : String) (arn : String) :
    ∀ rs : List ResourceRecord,
      ((rs.map fun r => (sn, r)).filter fun p => isHit arn p.2).map
          (fun p => (p.1, p.2.resource)) =
        (rs.filter (isHit arn)).map fun r => (sn, r.resource) := by
  intro rs
  induction rs with
  | nil => rfl
  | cons r rs ih =>
    cases h : isHit arn r
    · simp [List.filter_cons, h, ih]
    · simp [List.filter_cons, h, ih]

theorem records_spec (arn : String) :
    ∀ catalog : List ServiceRecord,
      ((catalogRecords catalog).filter fun p => isHit arn p.2).map
          (fun p => (p.1, p.2.resource)) = resolveSpec catalog arn := by
  intro catalog
  induction catalog with
  | nil => rfl
  | cons s rest ih =>
    simp only [catalogRecords, resolveSpec, List.flatMap_cons, List.filter_append,
      List.map_append] at ih ⊢
    rw [records_inner, ih]

/-- C7: when no catalog entry makes the matcher raise,
`get_resource_type_from_arn` emits exactly the (service name, resource type
name) pairs whose `${...}`-normalized template the matcher judges to
intersect the input ARN, in catalog iteration order with duplicates kept —
the spec-side sequence `resolveSpec`. -/
theorem resolver_emits_matches (catalog : List ServiceRecord) (arn : String)
    (h : (catalogRecords catalog).all (noRaise arn) = true) :
    get_resource_type_from_arn catalog arn = (resolveSpec catalog arn, none) := by
  rw [get_resource_type_from_arn, resolveAux_all_ok arn _ h, records_spec]

/-- A two-service demonstration catalog whose templates are well-formed. -/
def demoCatalog : List ServiceRecord :=
  [⟨"Amazon S3", [⟨"bucket", "arn:*:s3:::$\x7bBucketName\x7d"⟩]⟩,
   ⟨"Amazon EC2", [⟨"instance", "arn:*:ec2:*:*:instance/$\x7bInstanceId\x7d"⟩]⟩]

/-- Witness for `resolver_emits_matches` on `demoCatalog`. -/
theorem resolver_emits_matches_witness :
    (catalogRecords demoCatalog).all (noRaise "arn:aws:s3:::mybucket") = true ∧
      get_resource_type_from_arn demoCatalog "arn:aws:s3:::mybucket" =
        (resolveSpec demoCatalog "arn:aws:s3:::mybucket", none) :=
  ⟨by decide, resolver_emits_matches demoCatalog "arn:aws:s3:::mybucket" (by decide)⟩

theorem resolveAux_error (arn : String) :
    ∀ (pre : List (String × ResourceRecord)) (q : String × ResourceRecord)
      (post : List (String × ResourceRecord)) (e : String),
      pre.all (noRaise arn) = true →
      is_arn_match q.2.resource arn (normalizeTemplate q.2.arn) = Except.error e →
      resolveAux arn (pre ++ q :: post) =
        ((pre.filter fun p => isHit arn p.2).map fun p => (p.1, p.2.resource), some e) := by
  intro pre
  induction pre with
  | nil =>
    intro q post e _ hq
    rw [List.nil_append, resolveAux, hq]
    rfl
  | cons p pre ih =>
    intro q post e hall hq
    rw [List.all_cons, Bool.and_eq_true] at hall
    obtain ⟨hp, hrest⟩ := hall
    rw [List.cons_append, resolveAux]
    cases hm : is_arn_match p.2.resource arn (normalizeTemplate p.2.arn) with
    | error e2 => simp [noRaise, hm] at hp
    | ok b =>
      simp only [ih q post e hrest hq, List.filter_cons, isHit_eq hm]
      cases b <;> simp

/-- C10: if, scanning the catalog in order, every record before some entry
lets the matcher return but that entry makes it raise, then
`get_resource_type_from_arn` propagates that same error unmodified, having
emitted exactly the qualifying pairs of the records before the failing
one. -/
theorem resolver_error_propagation (catalog : List ServiceRecord) (arn : String)
    (pre post : List (String × ResourceRecord)) (q : String × ResourceRecord) (e : String)
    (hsplit : catalogRecords catalog = pre ++ q :: post)
    (hpre : pre.all (noRaise arn) = true)
    (hq : is_arn_match q.2.resource arn (normalizeTemplate q.2.arn) = Except.error e) :
    get_resource_type_from_arn catalog arn =
      ((pre.filter fun p => isHit arn p.2).map fun p => (p.1, p.2.resource), some e) := by
  rw [get_resource_type_from_arn, hsplit, resolveAux_error arn pre q post e hpre hq]

/-- A catalog whose second record carries a malformed (5-segment-less)
template, making the matcher raise on it. -/
def demoCatalogBad : List ServiceRecord :=
  [⟨"Amazon S3", [⟨"bucket", "arn:*:s3:::$\x7bBucketName\x7d"⟩]⟩,
   ⟨"Bad Service", [⟨"thing", "badtemplate"⟩]⟩]

/-- Witness for `resolver_error_propagation` on `demoCatalogBad`: the S3 pair
is emitted, then the error raised on the second record is propagated. -/
theorem resolver_error_propagation_witness :
    catalogRecords demoCatalogBad =
        [("Amazon S3", ⟨"bucket", "arn:*:s3:::$\x7bBucketName\x7d"⟩)] ++
          ("Bad Service", ⟨"thing", "badtemplate"⟩) ::
            ([] : List (String × ResourceRecord)) ∧
      ([("Amazon S3", (⟨"bucket", "arn:*:s3:::$\x7bBucketName\x7d"⟩ : ResourceRecord))].all
        (noRaise "arn:aws:s3:::mybucket") = true) ∧
      is_arn_match "thing" "arn:aws:s3:::mybucket" (normalizeTemplate "badtemplate") =
        Except.error "Unexpected format for resource: badtemplate" ∧
      get_resource_type_from_arn demoCatalogBad "arn:aws:s3:::mybucket" =
        (([("Amazon S3", (⟨"bucket", "arn:*:s3:::$\x7bBucketName\x7d"⟩ : ResourceRecord))].filter
            fun p => isHit "arn:aws:s3:::mybucket" p.2).map
          fun p => (p.1, p.2.resource), some "Unexpected format for resource: badtemplate") :=
  ⟨by decide, by decide, by decide,
    resolver_error_propagation demoCatalogBad "arn:aws:s3:::mybucket"
      [("Amazon S3", ⟨"bucket", "arn:*:s3:::$\x7bBucketName\x7d"⟩)]
      [] ("Bad Service", ⟨"thing", "badtemplate"⟩)
      "Unexpected format for resource: badtemplate"
      (by decide) (by decide) (by decide)⟩
